import Mathlib

/-!
Verification of `cpm_serial_port_action_info.py` (wti-collection).

The module builds one authenticated HTTP GET request from its parameters,
issues it, and returns the decoded JSON body (or a structured failure).
The definitions below shallowly embed `run_module`:

* parameter record (`Params`) mirroring the argument spec;
* `to_native_opt` models `ansible.module_utils._text.to_native` applied to
  the optional `cpm_username` (Python `to_native(None)` is the string
  `"None"`, since `to_text` falls back to `str(obj)` for non-strings);
* `strBytes` / `b64encode` model `to_bytes` (UTF-8) and `base64.b64encode`;
* `joinedPorts` models Python `','.join`;
* `buildHeader`, `scheme`, `apiPath`, `buildFullUrl` embed lines 162-178;
* `run_module` embeds the request/response handling of lines 180-199, with
  the remote side abstracted as a function from the issued request (URL and
  header) to an `HttpOutcome`; `json.loads` is abstracted by carrying the
  decoded body as `Option Json` (`none` = the body is not valid JSON, in
  which case `json.loads` raises an uncaught `JSONDecodeError`).
-/

/-- JSON values, the codomain of `json.loads`. -/
inductive Json where
  | null : Json
  | bool (b : Bool) : Json
  | num (n : Int) : Json
  | str (s : String) : Json
  | arr (elems : List Json) : Json
  | obj (fields : List (String × Json)) : Json

/-- UTF-8 encoding of one code point, as `to_bytes` uses (bytes as `Nat`). -/
def utf8Bytes (c : Char) : List Nat :=
  let n := c.toNat
  if n < 128 then [n]
  else if n < 2048 then [192 + n / 64, 128 + n % 64]
  else if n < 65536 then [224 + n / 4096, 128 + (n / 64) % 64, 128 + n % 64]
  else [240 + n / 262144, 128 + (n / 4096) % 64, 128 + (n / 64) % 64, 128 + n % 64]

/-- Models Python `to_bytes(s)`: the UTF-8 byte sequence of the string. -/
def strBytes (s : String) : List Nat :=
  s.data.flatMap utf8Bytes

/-- The base64 alphabet, indexed 0..63. -/
def b64char (n : Nat) : Char :=
  "ABCDEFGHIJKLMNOPQRSTUVWXYZabcdefghijklmnopqrstuvwxyz0123456789+/".data.getD n 'A'

/-- Models Python `base64.b64encode` on a byte list, producing the padded
base64 text. -/
def b64encode : List Nat → String
  | [] => ""
  | [a] => String.mk [b64char (a / 4), b64char (a % 4 * 16), '=', '=']
  | [a, b] => String.mk [b64char (a / 4), b64char (a % 4 * 16 + b / 16), b64char (b % 16 * 4), '=']
  | a :: b :: c :: rest =>
      String.mk [b64char (a / 4), b64char (a % 4 * 16 + b / 16),
                 b64char (b % 16 * 4 + c / 64), b64char (c % 64)] ++ b64encode rest

/-- Models Python `','.join` on the port list (line 176). -/
def joinedPorts : List String → String
  | [] => ""
  | [x] => x
  | x :: y :: rest => x ++ "," ++ joinedPorts (y :: rest)

/-- The module parameters of the argument spec (lines 145-153).
`cpm_username` is optional (`required=False`, no default), so an omitted
username arrives as Python `None`, modelled by `Option.none`. -/
structure Params where
  cpm_url : String
  cpm_username : Option String
  cpm_password : String
  port : List String
  use_https : Bool
  validate_certs : Bool
  use_proxy : Bool

/-- Models `to_native(module.params[cpm_username])`: a present string is
returned unchanged; Python `to_native(None)` yields the string "None". -/
def to_native_opt : Option String → String
  | none => "None"
  | some s => s

/-- The request header dictionary (lines 162-167). -/
def buildHeader (p : Params) : List (String × String) :=
  if (to_native_opt p.cpm_username).length > 0 then
    [("Content-Type", "application/json"),
     ("Authorization",
      "Basic " ++ b64encode (strBytes (to_native_opt p.cpm_username ++ ":" ++ p.cpm_password)))]
  else
    [("Content-Type", "application/json"), ("X-WTI-API-KEY", p.cpm_password)]

/-- The URL scheme (lines 169-172). -/
def scheme (p : Params) : String :=
  if p.use_https then "https://" else "http://"

/-- The request path selected by the username mode, read off the format
string of line 177 with its conditional `/token` segment (line 178). -/
def apiPath (p : Params) : String :=
  "/api/v2" ++ (if (to_native_opt p.cpm_username).length > 0 then "" else "/token")
    ++ "/config/serialportsaction"

/-- `fullurl` (lines 177-178): the format string
`"%s%s/api/v2%s/config/serialportsaction?ports=%s"` applied to the scheme,
the device URL, the conditional `/token` segment and the joined ports. -/
def buildFullUrl (p : Params) : String :=
  scheme p ++ p.cpm_url ++ "/api/v2"
    ++ (if (to_native_opt p.cpm_username).length > 0 then "" else "/token")
    ++ "/config/serialportsaction?ports=" ++ joinedPorts p.port

/-- Outcome of the single `open_url` call, with the response body already
put through `json.loads`: `success (some v)` is an HTTP success whose body
decodes to `v`; `success none` is an HTTP success whose body is not valid
JSON; the other constructors are the four exception classes caught on
lines 184-195, carrying `to_native(e)`. -/
inductive HttpOutcome where
  | success (decoded : Option Json) : HttpOutcome
  | httpError (e : String) : HttpOutcome
  | urlError (e : String) : HttpOutcome
  | sslValidationError (e : String) : HttpOutcome
  | connectionError (e : String) : HttpOutcome

/-- How one invocation ends: `exit` is `module.exit_json(changed, data)`,
`fail` is `module.fail_json(msg, changed)`, and `crash` is an exception
that no handler catches (the host reports it as a module failure). -/
inductive ModuleOutcome where
  | exit (changed : Bool) (data : Json) : ModuleOutcome
  | fail (msg : String) (changed : Bool) : ModuleOutcome
  | crash (exc : String) : ModuleOutcome

/-- The uncaught exception raised by `json.loads` on an invalid body. -/
def jsonDecodeErr : String := "json.decoder.JSONDecodeError"

/-- Embedding of `run_module` (lines 142-199). The remote device is a
function from the issued request (full URL and header dictionary) to an
`HttpOutcome`; exactly one request is made. On success the decoded body is
stored in `result[data]` with `changed=False` (lines 155-158 and 197-199);
each caught exception produces its `fail_json` message (lines 184-195);
a body that is not valid JSON makes `json.loads` raise, uncaught. -/
def run_module (p : Params) (server : String → List (String × String) → HttpOutcome) :
    ModuleOutcome :=
  let header := buildHeader p
  let fullurl := buildFullUrl p
  match server fullurl header with
  | .success (some v) => .exit false v
  | .success none => .crash jsonDecodeErr
  | .httpError e =>
      .fail ("GET: Received HTTP error for " ++ fullurl ++ " : " ++ e) false
  | .urlError e =>
      .fail ("GET: Failed lookup url for " ++ fullurl ++ " : " ++ e) false
  | .sslValidationError e =>
      .fail ("GET: Error validating the servers certificate for " ++ fullurl ++ " : " ++ e) false
  | .connectionError e =>
      .fail ("GET: Error connecting to " ++ fullurl ++ " : " ++ e) false

/-- The `changed` flag an outcome reports, if it reports one. -/
def changedOf : ModuleOutcome → Option Bool
  | .exit c _ => some c
  | .fail _ c => some c
  | .crash _ => none

/-- Whether an outcome is a success result (`module.exit_json`). -/
def isExit : ModuleOutcome → Bool
  | .exit _ _ => true
  | _ => false

/-- Character of a string at an index (default `*` out of range). -/
def charAt (s : String) (n : Nat) : Char :=
  s.data.getD n '*'

/-- Concrete parameters: Basic-Auth mode over HTTPS, wildcard port. -/
def pBasic : Params := ⟨"nonexist.wti.com", some "user", "pw", ["*"], true, false, false⟩

/-- Concrete parameters: token mode (empty username) over HTTPS. -/
def pToken : Params := ⟨"nonexist.wti.com", some "", "tok", ["*"], true, false, false⟩

/-- Concrete parameters: username omitted (Python `None`), plain HTTP. -/
def pNone : Params := ⟨"nonexist.wti.com", none, "pw", ["*"], false, false, false⟩

/-- Concrete parameters: Basic-Auth mode over HTTP, port list `["2"]`. -/
def pHttp : Params := ⟨"host", some "user", "pw", ["2"], false, false, false⟩

/-- The example response body of the module documentation, decoded. -/
def exampleJson : Json :=
  Json.arr [Json.obj [("port", Json.num 2), ("connstatus", Json.str "Free")]]

theorem data_append (a b : String) : (a ++ b).data = a.data ++ b.data := rfl

theorem str_length_pos (u : String) (h : u ≠ "") : 0 < u.length := by
  cases u with
  | mk d =>
    cases d with
    | nil => exact absurd rfl h
    | cons c cs => simp [String.length]

theorem charAt_append_left (a b : String) (n : Nat) (h : n < a.data.length) :
    charAt (a ++ b) n = charAt a n := by
  unfold charAt
  rw [data_append]
  exact List.getD_append _ _ _ _ h

theorem charAt_msg (a u t e : String) (h : 11 < a.data.length) :
    charAt (a ++ u ++ t ++ e) 11 = charAt a 11 := by
  have h2 : 11 < (a ++ u).data.length := by
    rw [data_append, List.length_append]; omega
  have h3 : 11 < (a ++ u ++ t).data.length := by
    rw [data_append, List.length_append]; omega
  rw [charAt_append_left _ _ _ h3, charAt_append_left _ _ _ h2, charAt_append_left _ _ _ h]

theorem lit_split_config : ("/config/serialportsaction?ports=" : String)
    = "/config/serialportsaction" ++ "?ports=" := rfl

theorem lit_split_api : ("/api/v2/config/serialportsaction?ports=" : String)
    = "/api/v2" ++ "/config/serialportsaction?ports=" := rfl

/-- C1: for a non-empty `cpm_username` the header carries
`Content-Type: application/json` and `Authorization: Basic
base64(username:password)` and no `X-WTI-API-KEY` entry; for an empty
`cpm_username` it carries `Content-Type: application/json` and
`X-WTI-API-KEY` set to `cpm_password` and no `Authorization` entry. -/
theorem auth_header_spec (p : Params) (u : String) :
    (p.cpm_username = some u → u ≠ "" →
      ("Content-Type", "application/json") ∈ buildHeader p ∧
      ("Authorization", "Basic " ++ b64encode (strBytes (u ++ ":" ++ p.cpm_password)))
        ∈ buildHeader p ∧
      ∀ v, ("X-WTI-API-KEY", v) ∉ buildHeader p) ∧
    (p.cpm_username = some "" →
      ("Content-Type", "application/json") ∈ buildHeader p ∧
      ("X-WTI-API-KEY", p.cpm_password) ∈ buildHeader p ∧
      ∀ v, ("Authorization", v) ∉ buildHeader p) := by
  constructor
  · intro hu hne
    have hl : 0 < u.length := str_length_pos u hne
    simp [buildHeader, hu, to_native_opt, hl]
  · intro hu
    simp [buildHeader, hu, to_native_opt]

/-- C1 witness: both branches at concrete inputs. -/
theorem auth_header_spec_witness :
    ("Authorization", "Basic " ++ b64encode (strBytes ("user" ++ ":" ++ "pw")))
      ∈ buildHeader pBasic ∧
    ("X-WTI-API-KEY", "tok") ∈ buildHeader pToken :=
  ⟨((auth_header_spec pBasic "user").1 rfl (by decide)).2.1,
   ((auth_header_spec pToken "").2 rfl).2.1⟩

/-- C2: the request path is `/api/v2/config/serialportsaction` for a
non-empty username and `/api/v2/token/config/serialportsaction` for an
empty username: the `/token` segment appears exactly when the username is
the empty string. -/
theorem api_path_spec (p : Params) (u : String) :
    (p.cpm_username = some u → u ≠ "" → apiPath p = "/api/v2/config/serialportsaction") ∧
    (p.cpm_username = some "" → apiPath p = "/api/v2/token/config/serialportsaction") := by
  constructor
  · intro hu hne
    have hl : 0 < u.length := str_length_pos u hne
    simp [apiPath, hu, to_native_opt, hl]
  · intro hu
    simp [apiPath, hu, to_native_opt]

/-- C2 witness: both path modes at concrete inputs. -/
theorem api_path_spec_witness :
    apiPath pBasic = "/api/v2/config/serialportsaction" ∧
    apiPath pToken = "/api/v2/token/config/serialportsaction" :=
  ⟨(api_path_spec pBasic "user").1 rfl (by decide), (api_path_spec pToken "").2 rfl⟩

/-- C3: the ports query value is the port list joined with commas, in the
given order, each element verbatim (no deduplication, no numeric
validation); `["2"]` yields a URL ending `?ports=2`, `["2","4"]` yields
`?ports=2,4`, and the default `["*"]` yields `?ports=*`. -/
theorem ports_join_spec (p : Params) (x : String) (rest : List String) :
    (p.port = x :: rest →
      joinedPorts p.port = x ++ (if rest.isEmpty then "" else "," ++ joinedPorts rest)) ∧
    joinedPorts ["2", "2"] = "2,2" ∧
    joinedPorts ["4", "2"] = "4,2" ∧
    (p.port = ["2"] → buildFullUrl p = scheme p ++ p.cpm_url ++ apiPath p ++ "?ports=2") ∧
    (p.port = ["2", "4"] → buildFullUrl p = scheme p ++ p.cpm_url ++ apiPath p ++ "?ports=2,4") ∧
    (p.port = ["*"] → buildFullUrl p = scheme p ++ p.cpm_url ++ apiPath p ++ "?ports=*") := by
  refine ⟨fun hp => ?_, by decide, by decide, fun hp => ?_, fun hp => ?_, fun hp => ?_⟩
  · cases rest with
    | nil => simp [hp, joinedPorts]
    | cons y ys => simp [hp, joinedPorts, String.append_assoc]
  · simp only [buildFullUrl, apiPath, hp, joinedPorts, lit_split_config,
      String.append_assoc, show ("?ports=" ++ "2" : String) = "?ports=2" from rfl]
  · simp only [buildFullUrl, apiPath, hp, joinedPorts, lit_split_config,
      String.append_assoc, show ("2" ++ ("," ++ "4") : String) = "2,4" from rfl,
      show ("?ports=" ++ "2,4" : String) = "?ports=2,4" from rfl]
  · simp only [buildFullUrl, apiPath, hp, joinedPorts, lit_split_config,
      String.append_assoc, show ("?ports=" ++ "*" : String) = "?ports=*" from rfl]

/-- C3 witness: the three documented port selectors at concrete inputs. -/
theorem ports_join_spec_witness :
    buildFullUrl pHttp = scheme pHttp ++ pHttp.cpm_url ++ apiPath pHttp ++ "?ports=2" ∧
    joinedPorts ["2", "2"] = "2,2" :=
  ⟨(ports_join_spec pHttp "2" []).2.2.2.1 rfl, (ports_join_spec pHttp "2" []).2.1⟩

/-- C4: the full request URL is the scheme, then the device URL, then the
mode-selected path, then `?ports=` and the joined port selector; the
scheme is `https://` exactly when `use_https` is true, else `http://`. -/
theorem full_url_spec (p : Params) :
    buildFullUrl p = scheme p ++ p.cpm_url ++ apiPath p ++ "?ports=" ++ joinedPorts p.port ∧
    (p.use_https = true →
      buildFullUrl p =
        "https://" ++ (p.cpm_url ++ (apiPath p ++ ("?ports=" ++ joinedPorts p.port)))) ∧
    (p.use_https = false →
      buildFullUrl p =
        "http://" ++ (p.cpm_url ++ (apiPath p ++ ("?ports=" ++ joinedPorts p.port)))) := by
  have h1 : buildFullUrl p
      = scheme p ++ p.cpm_url ++ apiPath p ++ "?ports=" ++ joinedPorts p.port := by
    simp only [buildFullUrl, apiPath, lit_split_config, String.append_assoc]
  refine ⟨h1, fun hh => ?_, fun hh => ?_⟩ <;>
    simp only [h1, scheme, hh, if_true, if_false, Bool.false_eq_true, String.append_assoc]

/-- C4 witness: both scheme branches at concrete inputs. -/
theorem full_url_spec_witness :
    buildFullUrl pBasic =
      "https://" ++ (pBasic.cpm_url ++ (apiPath pBasic ++ ("?ports=" ++ joinedPorts pBasic.port))) ∧
    buildFullUrl pNone =
      "http://" ++ (pNone.cpm_url ++ (apiPath pNone ++ ("?ports=" ++ joinedPorts pNone.port))) :=
  ⟨(full_url_spec pBasic).2.1 rfl, (full_url_spec pNone).2.2 rfl⟩

/-- C5: when the HTTP call succeeds and the body is valid JSON, the module
exits successfully with `changed = false` and `data` exactly the decoded
body. -/
theorem success_result_spec (p : Params)
    (server : String → List (String × String) → HttpOutcome) (v : Json)
    (h : server (buildFullUrl p) (buildHeader p) = HttpOutcome.success (some v)) :
    run_module p server = ModuleOutcome.exit false v := by
  simp only [run_module, h]

/-- C5 witness: the documented mock response
`[{"port":2,"connstatus":"Free"}]` yields `changed=false` with that body
as `data`. -/
theorem success_result_spec_witness :
    run_module pBasic (fun _ _ => HttpOutcome.success (some exampleJson)) =
      ModuleOutcome.exit false exampleJson :=
  success_result_spec pBasic _ exampleJson rfl

/-- C6: each of the four caught failure classes terminates the operation
with `fail_json`: the message is the class-specific text followed by the
full request URL and the underlying error text, `changed` is false, and no
data payload is produced (the operation is not retried). -/
theorem failure_outcome_spec (p : Params)
    (server : String → List (String × String) → HttpOutcome) (e : String) :
    (server (buildFullUrl p) (buildHeader p) = HttpOutcome.httpError e →
      run_module p server =
        ModuleOutcome.fail ("GET: Received HTTP error for " ++ buildFullUrl p ++ " : " ++ e)
          false) ∧
    (server (buildFullUrl p) (buildHeader p) = HttpOutcome.urlError e →
      run_module p server =
        ModuleOutcome.fail ("GET: Failed lookup url for " ++ buildFullUrl p ++ " : " ++ e)
          false) ∧
    (server (buildFullUrl p) (buildHeader p) = HttpOutcome.sslValidationError e →
      run_module p server =
        ModuleOutcome.fail
          ("GET: Error validating the servers certificate for " ++ buildFullUrl p ++ " : " ++ e)
          false) ∧
    (server (buildFullUrl p) (buildHeader p) = HttpOutcome.connectionError e →
      run_module p server =
        ModuleOutcome.fail ("GET: Error connecting to " ++ buildFullUrl p ++ " : " ++ e)
          false) := by
  refine ⟨fun h => ?_, fun h => ?_, fun h => ?_, fun h => ?_⟩ <;> simp only [run_module, h]

/-- C6 witness: all four failure classes at a concrete input. -/
theorem failure_outcome_spec_witness :
    run_module pHttp (fun _ _ => HttpOutcome.httpError "500") =
      ModuleOutcome.fail
        ("GET: Received HTTP error for " ++ buildFullUrl pHttp ++ " : " ++ "500") false ∧
    run_module pHttp (fun _ _ => HttpOutcome.urlError "no host") =
      ModuleOutcome.fail
        ("GET: Failed lookup url for " ++ buildFullUrl pHttp ++ " : " ++ "no host") false ∧
    run_module pHttp (fun _ _ => HttpOutcome.sslValidationError "bad cert") =
      ModuleOutcome.fail
        ("GET: Error validating the servers certificate for " ++ buildFullUrl pHttp
          ++ " : " ++ "bad cert") false ∧
    run_module pHttp (fun _ _ => HttpOutcome.connectionError "refused") =
      ModuleOutcome.fail
        ("GET: Error connecting to " ++ buildFullUrl pHttp ++ " : " ++ "refused") false :=
  ⟨(failure_outcome_spec pHttp _ "500").1 rfl,
   (failure_outcome_spec pHttp _ "no host").2.1 rfl,
   (failure_outcome_spec pHttp _ "bad cert").2.2.1 rfl,
   (failure_outcome_spec pHttp _ "refused").2.2.2 rfl⟩

/-- C7: a TLS certificate-validation failure and a plain connection
failure on the same input produce distinct failure messages, both with
`changed = false`. -/
theorem ssl_vs_conn_distinct (p : Params)
    (s1 s2 : String → List (String × String) → HttpOutcome) (e1 e2 : String)
    (h1 : s1 (buildFullUrl p) (buildHeader p) = HttpOutcome.sslValidationError e1)
    (h2 : s2 (buildFullUrl p) (buildHeader p) = HttpOutcome.connectionError e2) :
    run_module p s1 =
      ModuleOutcome.fail
        ("GET: Error validating the servers certificate for " ++ buildFullUrl p ++ " : " ++ e1)
        false ∧
    run_module p s2 =
      ModuleOutcome.fail
        ("GET: Error connecting to " ++ buildFullUrl p ++ " : " ++ e2) false ∧
    "GET: Error validating the servers certificate for " ++ buildFullUrl p ++ " : " ++ e1 ≠
      "GET: Error connecting to " ++ buildFullUrl p ++ " : " ++ e2 := by
  refine ⟨by simp only [run_module, h1], by simp only [run_module, h2], fun hEq => ?_⟩
  have hv : charAt ("GET: Error validating the servers certificate for "
      ++ buildFullUrl p ++ " : " ++ e1) 11 = 'v' := by
    rw [charAt_msg _ _ _ _ (by decide)]; decide
  have hc : charAt ("GET: Error connecting to "
      ++ buildFullUrl p ++ " : " ++ e2) 11 = 'c' := by
    rw [charAt_msg _ _ _ _ (by decide)]; decide
  have hvc : ('v' : Char) = 'c' := by
    rw [← hv, ← hc, hEq]
  exact absurd hvc (by decide)

/-- C7 witness: concrete TLS-validation and connection failures. -/
theorem ssl_vs_conn_distinct_witness :
    run_module pBasic (fun _ _ => HttpOutcome.sslValidationError "certificate verify failed") =
      ModuleOutcome.fail
        ("GET: Error validating the servers certificate for " ++ buildFullUrl pBasic
          ++ " : " ++ "certificate verify failed") false ∧
    run_module pBasic (fun _ _ => HttpOutcome.connectionError "connection refused") =
      ModuleOutcome.fail
        ("GET: Error connecting to " ++ buildFullUrl pBasic
          ++ " : " ++ "connection refused") false ∧
    "GET: Error validating the servers certificate for " ++ buildFullUrl pBasic
        ++ " : " ++ "certificate verify failed" ≠
      "GET: Error connecting to " ++ buildFullUrl pBasic ++ " : " ++ "connection refused" :=
  ssl_vs_conn_distinct pBasic _ _ "certificate verify failed" "connection refused" rfl rfl

/-- C8: every outcome that reports a `changed` flag reports it as false;
the only outcome reporting none is the crash of `json.loads` on an
invalid body, so for a success or any recognized failure the module never
reports a change. -/
theorem changed_always_false (p : Params)
    (server : String → List (String × String) → HttpOutcome) :
    changedOf (run_module p server) = some false ∨
      run_module p server = ModuleOutcome.crash jsonDecodeErr := by
  cases hs : server (buildFullUrl p) (buildHeader p) with
  | success d =>
    cases d with
    | none => exact Or.inr (by simp only [run_module, hs])
    | some v => exact Or.inl (by simp only [run_module, hs, changedOf])
  | httpError e => exact Or.inl (by simp only [run_module, hs, changedOf])
  | urlError e => exact Or.inl (by simp only [run_module, hs, changedOf])
  | sslValidationError e => exact Or.inl (by simp only [run_module, hs, changedOf])
  | connectionError e => exact Or.inl (by simp only [run_module, hs, changedOf])

/-- C9: an HTTP success whose body is not valid JSON makes `json.loads`
raise an uncaught `JSONDecodeError`: the module crashes (the host surfaces
it as an error) and never produces a success result with a partial or raw
data payload. -/
theorem invalid_json_no_success (p : Params)
    (server : String → List (String × String) → HttpOutcome)
    (h : server (buildFullUrl p) (buildHeader p) = HttpOutcome.success none) :
    run_module p server = ModuleOutcome.crash jsonDecodeErr ∧
    isExit (run_module p server) = false := by
  refine ⟨by simp only [run_module, h], ?_⟩
  simp only [run_module, h, isExit]

/-- C9 witness: a concrete invalid-JSON success response. -/
theorem invalid_json_no_success_witness :
    run_module pToken (fun _ _ => HttpOutcome.success none) =
      ModuleOutcome.crash jsonDecodeErr ∧
    isExit (run_module pToken (fun _ _ => HttpOutcome.success none)) = false :=
  invalid_json_no_success pToken _ rfl

/-- C10: an absent `cpm_username` (Python `None`) is converted by
`to_native` to the non-empty string "None", so the module does not enter
token mode: it builds a Basic-Authorization header for the literal
username "None" with `cpm_password` and uses the credentialed path
without the `/token` segment. -/
theorem none_username_basic_auth (p : Params) (h : p.cpm_username = none) :
    to_native_opt p.cpm_username = "None" ∧
    buildHeader p =
      [("Content-Type", "application/json"),
       ("Authorization", "Basic " ++ b64encode (strBytes ("None" ++ ":" ++ p.cpm_password)))] ∧
    apiPath p = "/api/v2/config/serialportsaction" ∧
    buildFullUrl p =
      scheme p ++ p.cpm_url ++ "/api/v2/config/serialportsaction?ports=" ++ joinedPorts p.port := by
  refine ⟨by simp [h, to_native_opt], ?_, ?_, ?_⟩
  · simp [buildHeader, h, to_native_opt]
    decide
  · simp only [apiPath, h, to_native_opt]
    decide
  · simp only [buildFullUrl, h, to_native_opt, lit_split_api, lit_split_config,
      String.append_assoc, String.length, String.empty_append]
    rfl

/-- C10 witness: the omitted-username parameters. -/
theorem none_username_basic_auth_witness :
    to_native_opt pNone.cpm_username = "None" ∧
    buildHeader pNone =
      [("Content-Type", "application/json"),
       ("Authorization", "Basic " ++ b64encode (strBytes ("None" ++ ":" ++ pNone.cpm_password)))] ∧
    apiPath pNone = "/api/v2/config/serialportsaction" ∧
    buildFullUrl pNone =
      scheme pNone ++ pNone.cpm_url ++ "/api/v2/config/serialportsaction?ports="
        ++ joinedPorts pNone.port :=
  none_username_basic_auth pNone rfl
